import Mathlib

/-!
Verification of the x402 payment negotiation client of the `mallory`
repository (`src/lib/faremeter.ts` and `src/config/payments.ts`).

The TypeScript code is shallowly embedded: JSON values are an inductive
type, the JavaScript runtime behaviors that matter (truthiness, `||`,
property access throwing a TypeError on `null`, object-spread header
merging with last-write-wins) are modelled explicitly, and the
network/system effects (`fetch`, `Math.random`, `Date.now`,
`JSON.parse`, the wallet) are supplied as explicit environment records
so that every function is pure and executable.
-/

/-- A parsed JSON value, as produced by `JSON.parse`.  JSON numbers are
modelled as integers (no claim depends on fractional values); a JSON
object is its ordered field list, looked up by first match (JSON.parse
keeps a single binding per key). -/
inductive Json where
  | null
  | bool (b : Bool)
  | num (n : Int)
  | str (s : String)
  | arr (elems : List Json)
  | obj (fields : List (String × Json))

/-- First-match lookup of a field in a JSON object's field list. -/
def lookupField : List (String × Json) → String → Option Json
  | [], _ => none
  | (k, v) :: rest, key => if k = key then some v else lookupField rest key

/-- JavaScript property access `j.key` for a value known not to be
`null`: on an object it is the field (or `undefined`, rendered `none`);
on any other non-null value it is `undefined`. -/
def Json.getField : Json → String → Option Json
  | Json.obj fields, key => lookupField fields key
  | _, _ => none

/-- JavaScript truthiness of a JSON value: `null`, `false`, `0` and the
empty string are falsy; arrays and objects are always truthy. -/
def Json.truthy : Json → Bool
  | Json.null => false
  | Json.bool b => b
  | Json.num n => n != 0
  | Json.str s => s != ""
  | Json.arr _ => true
  | Json.obj _ => true

/-- JavaScript `a || b` on JSON values. -/
def jsOr (a b : Json) : Json := if a.truthy then a else b

/-- JavaScript `a || b` where `a` is a possibly-undefined string
(`none` = `undefined`); the empty string is falsy. -/
def jsOrStr (a : Option String) (b : String) : String :=
  match a with
  | some s => if s = "" then b else s
  | none => b

/-- JavaScript property access `j.key` under `x || default` semantics:
a missing field behaves as `undefined`, which is falsy like `null`. -/
def jsField (j : Json) (key : String) : Json :=
  match j.getField key with
  | some v => v
  | none => Json.null

/-- The test `acceptsData.key && Array.isArray(acceptsData.key)` of
`faremeter.ts` (arrays are always truthy, so the conjunction holds
exactly when the field is present and an array), returning the array.
Only meaningful for non-null `j`. -/
def arrField (j : Json) (key : String) : Option (List Json) :=
  match j.getField key with
  | some (Json.arr xs) => some xs
  | _ => none

/-- The entry normalization `(a: any) => a.method || a` of
`executeX402Flow` (faremeter.ts line 309).  On a `null` entry the
property access `a.method` throws a TypeError (`Except.error ()`);
on an object it is the `method` field when truthy, else the object;
on every other value `a.method` is `undefined`, so the entry itself. -/
def normalizeEntry : Json → Except Unit Json
  | Json.null => Except.error ()
  | Json.obj fields =>
      Except.ok (match lookupField fields "method" with
        | some m => if m.truthy then m else Json.obj fields
        | none => Json.obj fields)
  | a => Except.ok a

/-- `accepts.map((a: any) => a.method || a)`: left-to-right map whose
first TypeError aborts the whole expression. -/
def mapEntries : List Json → Except Unit (List Json)
  | [] => Except.ok []
  | a :: rest =>
    match normalizeEntry a with
    | Except.error e => Except.error e
    | Except.ok b =>
      match mapEntries rest with
      | Except.error e => Except.error e
      | Except.ok bs => Except.ok (b :: bs)

/-- The inline accepts-parsing step of `executeX402Flow`
(faremeter.ts lines 306-316): first match wins over `accepts`
(entries normalized through `a.method || a`), then `payment_methods`,
then `schemes`; otherwise the empty list.  A `null` body makes the very
first property access `acceptsData.accepts` throw a TypeError. -/
def resolveAcceptsInline : Json → Except Unit (List Json)
  | Json.null => Except.error ()
  | d =>
    match arrField d "accepts" with
    | some xs => mapEntries xs
    | none =>
      match arrField d "payment_methods" with
      | some xs => Except.ok xs
      | none =>
        match arrField d "schemes" with
        | some xs => Except.ok xs
        | none => Except.ok []

/-- The accepts-parsing step of `fetchAccepts` (faremeter.ts lines
107-118): identical field priority, but the `accepts` entries are NOT
normalized (no `.map(a => a.method || a)`). -/
def resolveAcceptsFetch : Json → Except Unit (List Json)
  | Json.null => Except.error ()
  | d =>
    match arrField d "accepts" with
    | some xs => Except.ok xs
    | none =>
      match arrField d "payment_methods" with
      | some xs => Except.ok xs
      | none =>
        match arrField d "schemes" with
        | some xs => Except.ok xs
        | none => Except.ok []

/-- The preference list `PAYMENT_SCHEMES` of `payments.ts` (lines
62-66), in order. -/
def PAYMENT_SCHEMES : List String :=
  ["x-solana-settlement", "x-ethereum-settlement", "x-bitcoin-settlement"]

/-- JavaScript `availableSchemes.includes(p)` where `p` is a string:
`===` only ever equates `p` with an equal string element (object
entries compare by reference and never equal a string). -/
def isStrEq (p : String) : Json → Bool
  | Json.str s => s == p
  | _ => false

/-- `choosePreferredScheme` of `payments.ts` (lines 71-78): the first
preferred scheme contained in the list, else `null`.  The runtime list
may contain non-string JSON values, which `includes` never matches. -/
def choosePreferredScheme (availableSchemes : List Json) : Option String :=
  PAYMENT_SCHEMES.find? (fun p => availableSchemes.any (isStrEq p))

/-- `chooseScheme` of `faremeter.ts` (lines 161-188).  Empty list:
the default `x-solana-settlement`.  Otherwise the preferred scheme if
one matches; else the first element when it is a truthy string
(`firstAvailable && typeof firstAvailable === 'string'`); else the
default. -/
def chooseScheme (accepts : List Json) : String :=
  if accepts.length = 0 then "x-solana-settlement"
  else
    match choosePreferredScheme accepts with
    | some chosen => chosen
    | none =>
      match accepts.head? with
      | some (Json.str s) => if s = "" then "x-solana-settlement" else s
      | _ => "x-solana-settlement"

/-- `chooseScheme` at its declared TypeScript type `string[]`. -/
def chooseSchemeStrings (accepts : List String) : String :=
  chooseScheme (accepts.map Json.str)

/-- `generateIdempotencyKey` of `payments.ts` (lines 81-85), with
`Date.now()` and the random suffix passed explicitly. -/
def generateIdempotencyKey (walletAddress productAsin : String)
    (timestamp : Nat) (random : String) : String :=
  walletAddress.take 8 ++ "-" ++ productAsin ++ "-" ++ toString timestamp ++ "-" ++ random

/-- The base58-style alphabet used by `signAndSubmit` to fabricate a
signature (faremeter.ts line 219). -/
def SIGNATURE_ALPHABET : String :=
  "123456789ABCDEFGHJKLMNPQRSTUVWXYZabcdefghijkmnopqrstuvwxyz"

/-- The 88-character fabricated signature of `signAndSubmit`
(faremeter.ts lines 220-223); `Math.floor(Math.random() * 58)` at each
position is supplied by the `rng` stream. -/
def fabricateSignature (rng : Nat → Fin 58) : String :=
  String.mk ((List.range 88).map (fun i => SIGNATURE_ALPHABET.data.getD (rng i).val 'A'))

/-- Payment metadata attached to a `PaymentIntent`
(faremeter.ts lines 334-338). -/
structure PaymentMetadata where
  method : String
  original_headers : List (String × String)
  body_hash : Option String

/-- `PaymentIntent` of faremeter.ts (lines 24-31). -/
structure PaymentIntent where
  scheme : String
  endpoint : String
  amount : Json
  currency : Json
  resource : Option String
  metadata : PaymentMetadata

/-- The `details` object built by `signAndSubmit`
(faremeter.ts lines 234-241). -/
structure PaymentDetails where
  scheme : String
  amount : Json
  currency : Json
  walletAddress : String
  idempotencyKey : String
  timestamp : Nat

/-- `FacilitatorResponse` of faremeter.ts (lines 40-46). -/
structure FacilitatorResponse where
  success : Bool
  signature : Option String
  transaction : Option String
  error : Option String
  details : Option PaymentDetails

/-- The structured `details` payloads carried by the error family of
faremeter.ts; one constructor per construction site. -/
inductive ErrorDetails where
  | emptyAccepts (endpoint : String)
  | unsupportedSchemes (available supported : List String)
  | unexpectedStatus (status : Nat) (endpoint : String)
  | fetchAcceptsFailed (endpoint : String)
  | invalidResponse (responseText : String)
  | originalError (message : String)
  | paymentResult (r : FacilitatorResponse)

/-- `FaremeterError` of faremeter.ts (lines 49-58): message, a
machine-readable code, and structured details. -/
structure FaremeterError where
  message : String
  code : String
  details : ErrorDetails

/-- `EmptyAcceptsError` (faremeter.ts lines 60-68). -/
def emptyAcceptsError (endpoint : String) : FaremeterError :=
  { message := "Empty accepts array from " ++ endpoint ++ ". This violates the x402 protocol."
    code := "EMPTY_ACCEPTS"
    details := ErrorDetails.emptyAccepts endpoint }

/-- The `INVALID_402_RESPONSE` error thrown by `executeX402Flow` when
the 402 body is not JSON (faremeter.ts lines 299-303). -/
def invalid402Error (responseText : String) : FaremeterError :=
  { message := "Invalid 402 response format"
    code := "INVALID_402_RESPONSE"
    details := ErrorDetails.invalidResponse responseText }

/-- The `X402_FLOW_FAILED` wrapper produced by the outer catch of
`executeX402Flow` when a non-`FaremeterError` exception (here: the
TypeError from a property access on `null`) escapes a step
(faremeter.ts lines 380-385). -/
def x402FlowFailedError (message : String) : FaremeterError :=
  { message := "x402 flow failed: " ++ message
    code := "X402_FLOW_FAILED"
    details := ErrorDetails.originalError message }

/-- The `PAYMENT_FAILED` error thrown when the signer reports a
non-success result (faremeter.ts lines 344-350). -/
def paymentFailedError (r : FacilitatorResponse) : FaremeterError :=
  { message := "Payment submission failed"
    code := "PAYMENT_FAILED"
    details := ErrorDetails.paymentResult r }

/-- The effects consumed by `signAndSubmit`: the wallet lookup
(`getWallet`, which may throw), the `Math.random` stream for the
fabricated signature, `Date.now()`, and the base-36 random suffix used
by the idempotency key. -/
structure SignEnv where
  getWallet : Except String String
  rng : Nat → Fin 58
  now : Nat
  rand36 : String

/-- `signAndSubmit` of faremeter.ts (lines 194-252): resolve the wallet
(any failure is wrapped as `SOLANA_PAYMENT_FAILED`), build the
idempotency key from `intent.resource || intent.endpoint`, fabricate an
88-character signature, and return an unconditional success whose
`transaction` equals the signature. -/
def signAndSubmit (env : SignEnv) (intent : PaymentIntent)
    (walletAddress : Option String) : Except FaremeterError FacilitatorResponse :=
  match env.getWallet with
  | Except.error e =>
      Except.error
        { message := "Solana payment failed: " ++ e
          code := "SOLANA_PAYMENT_FAILED"
          details := ErrorDetails.originalError e }
  | Except.ok pk =>
      let walletAddress := jsOrStr walletAddress pk
      let idempotencyKey :=
        generateIdempotencyKey walletAddress (jsOrStr intent.resource intent.endpoint)
          env.now env.rand36
      let signature := fabricateSignature env.rng
      Except.ok
        { success := true
          signature := some signature
          transaction := some signature
          error := none
          details := some
            { scheme := intent.scheme
              amount := intent.amount
              currency := intent.currency
              walletAddress := walletAddress
              idempotencyKey := idempotencyKey
              timestamp := env.now } }

/-- A terminated HTTP response: status plus body text. -/
structure HttpResponse where
  status : Nat
  bodyText : String

/-- The options object of `executeX402Flow` (faremeter.ts lines
260-265), with its destructuring defaults.  Headers are the ordered
entries of the caller's header object. -/
structure FlowOptions where
  method : String := "GET"
  headers : List (String × String) := []
  body : Option Json := none
  maxRetries : Nat := 2

/-- The retried request issued by `executeX402Flow` (faremeter.ts
lines 355-365): method, the merged header object in insertion order,
and the serialized body. -/
structure RetryRequest where
  method : String
  headers : List (String × String)
  body : Option String

/-- Value of a key in a JavaScript object built from an ordered entry
list: the last write wins. -/
def lookupLast : List (String × String) → String → Option String
  | [], _ => none
  | (k, v) :: rest, key =>
    match lookupLast rest key with
    | some w => some w
    | none => if k = key then some v else none

/-- The effects consumed by `executeX402Flow`: the initial response,
`JSON.parse`, the signer's effects, the retry `fetch`, and the
`JSON.stringify`/`btoa` encoders used for the request body. -/
structure FlowEnv where
  initResp : HttpResponse
  jsonParse : String → Option Json
  signEnv : SignEnv
  retryFetch : RetryRequest → HttpResponse
  stringify : Json → String
  btoa : String → String

/-- `body ? JSON.stringify(body) : undefined` (faremeter.ts lines 279
and 364). -/
def requestBody (env : FlowEnv) (opts : FlowOptions) : Option String :=
  match opts.body with
  | some b => if b.truthy then some (env.stringify b) else none
  | none => none

/-- The `PaymentIntent` built by `executeX402Flow` (faremeter.ts lines
328-339): scheme from `chooseScheme`, `amount`/`currency` from the 402
payload with `|| 0` and `|| 'USDC'` defaults, `resource` set to the
endpoint, and metadata capturing the original request. -/
def buildIntent (env : FlowEnv) (endpoint : String) (opts : FlowOptions)
    (acceptsData : Json) (accepts : List Json) : PaymentIntent :=
  { scheme := chooseScheme accepts
    endpoint := endpoint
    amount := jsOr (jsField acceptsData "amount") (Json.num 0)
    currency := jsOr (jsField acceptsData "currency") (Json.str "USDC")
    resource := some endpoint
    metadata :=
      { method := opts.method
        original_headers := opts.headers
        body_hash := (requestBody env opts).map env.btoa } }

/-- The header object of the retried request (faremeter.ts lines
357-363): the three payment-proof headers written first, then the
caller's headers spread over them (last write wins). -/
def paymentHeaders (sig tx : String) : List (String × String) :=
  [("Content-Type", "application/json"),
   ("x-faremeter-payment-id", sig),
   ("X-Payment-Signature", sig),
   ("X-Payment-Transaction", tx)]

/-- The retried request of `executeX402Flow` (faremeter.ts lines
355-365). -/
def buildRetryRequest (env : FlowEnv) (opts : FlowOptions) (sig tx : String) : RetryRequest :=
  { method := opts.method
    headers := paymentHeaders sig tx ++ opts.headers
    body := requestBody env opts }

/-- Outcome of one `executeX402Flow` invocation, together with the
observable interaction trace: the intents passed to `signAndSubmit`
and the retried requests issued. -/
structure FlowResult where
  result : Except FaremeterError HttpResponse
  signerCalls : List PaymentIntent
  retryCalls : List RetryRequest

/-- Steps 5-8 of `executeX402Flow` once the signer has answered
(faremeter.ts lines 344-372): a non-success result raises
`PAYMENT_FAILED`; otherwise the original request is retried once with
the payment-proof headers (`paymentResult.signature || ''` and
`paymentResult.transaction || ''`) and the retried response is
returned regardless of its status. -/
def flowRetry (env : FlowEnv) (opts : FlowOptions) (intent : PaymentIntent)
    (paymentResult : FacilitatorResponse) : FlowResult :=
  if paymentResult.success then
    let sig := jsOrStr paymentResult.signature ""
    let tx := jsOrStr paymentResult.transaction ""
    let req := buildRetryRequest env opts sig tx
    { result := Except.ok (env.retryFetch req)
      signerCalls := [intent], retryCalls := [req] }
  else
    { result := Except.error (paymentFailedError paymentResult)
      signerCalls := [intent], retryCalls := [] }

/-- Steps 3-5 of `executeX402Flow` once the accepts list is resolved
(faremeter.ts lines 318-342): an empty list raises `EMPTY_ACCEPTS`
before any signing attempt; otherwise the intent is built and signed. -/
def flowWithAccepts (env : FlowEnv) (endpoint : String) (opts : FlowOptions)
    (acceptsData : Json) (accepts : List Json) : FlowResult :=
  if accepts.length = 0 then
    { result := Except.error (emptyAcceptsError endpoint)
      signerCalls := [], retryCalls := [] }
  else
    let intent := buildIntent env endpoint opts acceptsData accepts
    match signAndSubmit env.signEnv intent none with
    | Except.error e =>
      { result := Except.error e, signerCalls := [intent], retryCalls := [] }
    | Except.ok paymentResult => flowRetry env opts intent paymentResult

/-- Step 2 of `executeX402Flow` once the 402 body has parsed as JSON
(faremeter.ts lines 306-316): resolve the accepts list; a TypeError
(null body or null entry) escapes to the outer catch and is wrapped as
`X402_FLOW_FAILED`. -/
def flowOn402 (env : FlowEnv) (endpoint : String) (opts : FlowOptions)
    (acceptsData : Json) : FlowResult :=
  match resolveAcceptsInline acceptsData with
  | Except.error _ =>
    { result := Except.error (x402FlowFailedError "TypeError")
      signerCalls := [], retryCalls := [] }
  | Except.ok accepts => flowWithAccepts env endpoint opts acceptsData accepts

/-- `executeX402Flow` of faremeter.ts (lines 258-387), assembled from
the stage functions above in source order: non-402 responses are
returned unchanged; a 402 body that does not parse as JSON raises
`INVALID_402_RESPONSE`; otherwise the negotiation proceeds. -/
def executeX402Flow (env : FlowEnv) (endpoint : String) (opts : FlowOptions) : FlowResult :=
  if env.initResp.status ≠ 402 then
    { result := Except.ok env.initResp, signerCalls := [], retryCalls := [] }
  else
    match env.jsonParse env.initResp.bodyText with
    | none =>
      { result := Except.error (invalid402Error env.initResp.bodyText)
        signerCalls := [], retryCalls := [] }
    | some acceptsData => flowOn402 env endpoint opts acceptsData

/-- Effects consumed by `fetchAccepts`: the status of the response to
its own GET request and the `response.json()` result (`none` when the
body is not JSON). -/
structure FetchEnv where
  status : Nat
  jsonBody : Option Json

/-- The `FETCH_ACCEPTS_FAILED` wrapper of `fetchAccepts`' catch block
(faremeter.ts lines 149-153), reached for non-`FaremeterError`
exceptions (JSON parse failure, TypeError). -/
def fetchAcceptsFailedError (endpoint : String) : FaremeterError :=
  { message := "Failed to fetch accepts from " ++ endpoint
    code := "FETCH_ACCEPTS_FAILED"
    details := ErrorDetails.fetchAcceptsFailed endpoint }

/-- `fetchAccepts` of faremeter.ts (lines 84-155).  On 402 it resolves
the accepts list without entry normalization and rejects an empty
result with `EmptyAcceptsError`; on 200 it returns an empty list by
design; any other status raises `UNEXPECTED_STATUS`.  The returned
`{ accepts, ...acceptsData }` spread is rendered as the pair of the
resolved list and the raw body. -/
def fetchAccepts (env : FetchEnv) (endpoint : String) :
    Except FaremeterError (List Json × Json) :=
  if env.status = 402 then
    match env.jsonBody with
    | none => Except.error (fetchAcceptsFailedError endpoint)
    | some acceptsData =>
      match resolveAcceptsFetch acceptsData with
      | Except.error _ => Except.error (fetchAcceptsFailedError endpoint)
      | Except.ok accepts =>
        if accepts.length = 0 then Except.error (emptyAcceptsError endpoint)
        else Except.ok (accepts, acceptsData)
  else if env.status = 200 then Except.ok ([], Json.null)
  else
    Except.error
      { message := "Unexpected response status: " ++ toString env.status
        code := "UNEXPECTED_STATUS"
        details := ErrorDetails.unexpectedStatus env.status endpoint }

/-- A signer environment for concrete evaluation: a resolved wallet, a
constant random stream, a fixed clock. -/
def demoSignEnv : SignEnv :=
  { getWallet := Except.ok "DemoWa11etPub1icKey"
    rng := fun _ => 0
    now := 1700000000000
    rand36 := "abc123" }

/-- A flow environment for concrete evaluation, whose `JSON.parse`
oracle returns `parsed` for every body text. -/
def demoFlowEnv (status : Nat) (bodyText : String) (parsed : Option Json) : FlowEnv :=
  { initResp := { status := status, bodyText := bodyText }
    jsonParse := fun _ => parsed
    signEnv := demoSignEnv
    retryFetch := fun _ => { status := 200, bodyText := "paid" }
    stringify := fun _ => "body"
    btoa := fun s => s }

/-- A concrete 402 body declaring one accepted scheme. -/
def demoAcceptsBody : Json :=
  Json.obj [("accepts", Json.arr [Json.str "x-solana-settlement"])]

/-- A concrete flow environment whose initial response is a 402 with
the one-scheme body above. -/
def demoPayEnv : FlowEnv := demoFlowEnv 402 "402body" (some demoAcceptsBody)

/- ------------------------------------------------------------------
Helper lemmas
------------------------------------------------------------------ -/

theorem length_pos_of_ne_empty (s : String) (h : s ≠ "") : 0 < s.length := by
  cases s with
  | mk data =>
    cases data with
    | nil => exact absurd rfl h
    | cons c cs => simp [String.length]

theorem fabricateSignature_length (rng : Nat → Fin 58) :
    (fabricateSignature rng).length = 88 := by
  show ((List.range 88).map _).length = 88
  simp

theorem fabricateSignature_ne_empty (rng : Nat → Fin 58) :
    fabricateSignature rng ≠ "" := by
  intro h
  have hl := fabricateSignature_length rng
  rw [h] at hl
  exact absurd hl (by decide)

theorem executeX402Flow_not402 (env : FlowEnv) (endpoint : String) (opts : FlowOptions)
    (h : env.initResp.status ≠ 402) :
    executeX402Flow env endpoint opts =
      { result := Except.ok env.initResp, signerCalls := [], retryCalls := [] } := by
  simp only [executeX402Flow]
  rw [if_pos h]

theorem executeX402Flow_noparse (env : FlowEnv) (endpoint : String) (opts : FlowOptions)
    (h402 : env.initResp.status = 402)
    (hp : env.jsonParse env.initResp.bodyText = none) :
    executeX402Flow env endpoint opts =
      { result := Except.error (invalid402Error env.initResp.bodyText)
        signerCalls := [], retryCalls := [] } := by
  simp only [executeX402Flow]
  rw [if_neg (by simp [h402]), hp]

theorem executeX402Flow_parse (env : FlowEnv) (endpoint : String) (opts : FlowOptions)
    (d : Json) (h402 : env.initResp.status = 402)
    (hp : env.jsonParse env.initResp.bodyText = some d) :
    executeX402Flow env endpoint opts = flowOn402 env endpoint opts d := by
  simp only [executeX402Flow]
  rw [if_neg (by simp [h402]), hp]

theorem flowOn402_err (env : FlowEnv) (endpoint : String) (opts : FlowOptions)
    (d : Json) (h : resolveAcceptsInline d = Except.error ()) :
    flowOn402 env endpoint opts d =
      { result := Except.error (x402FlowFailedError "TypeError")
        signerCalls := [], retryCalls := [] } := by
  simp only [flowOn402]
  rw [h]

theorem flowOn402_ok (env : FlowEnv) (endpoint : String) (opts : FlowOptions)
    (d : Json) (accepts : List Json) (h : resolveAcceptsInline d = Except.ok accepts) :
    flowOn402 env endpoint opts d = flowWithAccepts env endpoint opts d accepts := by
  simp only [flowOn402]
  rw [h]

theorem flowWithAccepts_nil (env : FlowEnv) (endpoint : String) (opts : FlowOptions)
    (d : Json) :
    flowWithAccepts env endpoint opts d [] =
      { result := Except.error (emptyAcceptsError endpoint)
        signerCalls := [], retryCalls := [] } := rfl

theorem signAndSubmit_ok (env : SignEnv) (intent : PaymentIntent) (wa : Option String)
    (pk : String) (hw : env.getWallet = Except.ok pk) :
    signAndSubmit env intent wa = Except.ok
      { success := true
        signature := some (fabricateSignature env.rng)
        transaction := some (fabricateSignature env.rng)
        error := none
        details := some
          { scheme := intent.scheme
            amount := intent.amount
            currency := intent.currency
            walletAddress := jsOrStr wa pk
            idempotencyKey :=
              generateIdempotencyKey (jsOrStr wa pk)
                (jsOrStr intent.resource intent.endpoint) env.now env.rand36
            timestamp := env.now } } := by
  simp only [signAndSubmit]
  rw [hw]

theorem jsOrStr_some_of_ne (s b : String) (h : s ≠ "") : jsOrStr (some s) b = s := by
  simp [jsOrStr, h]

theorem flowWithAccepts_success (env : FlowEnv) (endpoint : String) (opts : FlowOptions)
    (d : Json) (accepts : List Json) (hne : ¬ (accepts.length = 0))
    (pk : String) (hw : env.signEnv.getWallet = Except.ok pk) :
    flowWithAccepts env endpoint opts d accepts =
      { result := Except.ok (env.retryFetch
          (buildRetryRequest env opts (fabricateSignature env.signEnv.rng)
            (fabricateSignature env.signEnv.rng)))
        signerCalls := [buildIntent env endpoint opts d accepts]
        retryCalls := [buildRetryRequest env opts (fabricateSignature env.signEnv.rng)
          (fabricateSignature env.signEnv.rng)] } := by
  simp only [flowWithAccepts]
  rw [if_neg hne,
    signAndSubmit_ok env.signEnv (buildIntent env endpoint opts d accepts) none pk hw]
  simp only [flowRetry]
  simp [jsOrStr, fabricateSignature_ne_empty env.signEnv.rng]

theorem lookupLast_append (a b : List (String × String)) (k : String) :
    lookupLast (a ++ b) k =
      match lookupLast b k with
      | some w => some w
      | none => lookupLast a k := by
  induction a with
  | nil =>
    rcases hb : lookupLast b k with _ | w <;> simp [lookupLast, hb]
  | cons p rest ih =>
    rcases hb : lookupLast b k with _ | w <;>
      simp [lookupLast, ih, hb]

theorem lookupLast_eq_none_of_not_mem (b : List (String × String)) (k : String)
    (h : k ∉ b.map Prod.fst) : lookupLast b k = none := by
  induction b with
  | nil => rfl
  | cons p rest ih =>
    simp only [List.map_cons, List.mem_cons] at h
    push_neg at h
    simp [lookupLast, ih h.2, if_neg (Ne.symm h.1)]

theorem lookupLast_isSome_of_mem (b : List (String × String)) (k : String)
    (h : k ∈ b.map Prod.fst) : (lookupLast b k).isSome := by
  induction b with
  | nil => simp at h
  | cons p rest ih =>
    simp only [List.map_cons, List.mem_cons] at h
    rcases hr : lookupLast rest k with _ | w
    · rcases h with h | h
      · simp [lookupLast, hr, if_pos h.symm]
      · have := ih h
        rw [hr] at this
        simp at this
    · simp [lookupLast, hr]

theorem lookupLast_append_of_mem (a b : List (String × String)) (k : String)
    (h : k ∈ b.map Prod.fst) : lookupLast (a ++ b) k = lookupLast b k := by
  rw [lookupLast_append]
  rcases hb : lookupLast b k with _ | w
  · have := lookupLast_isSome_of_mem b k h
    rw [hb] at this
    simp at this
  · rfl

theorem lookupLast_append_of_not_mem (a b : List (String × String)) (k : String)
    (h : k ∉ b.map Prod.fst) : lookupLast (a ++ b) k = lookupLast a k := by
  rw [lookupLast_append, lookupLast_eq_none_of_not_mem b k h]

theorem mapEntries_strings (xs : List Json) (h : ∀ j ∈ xs, ∃ s, j = Json.str s) :
    mapEntries xs = Except.ok xs := by
  induction xs with
  | nil => rfl
  | cons a rest ih =>
    obtain ⟨s, rfl⟩ := h a (by simp)
    have hr := ih (fun j hj => h j (by simp [hj]))
    simp [mapEntries, normalizeEntry, hr]

theorem any_isStrEq_map (l : List String) (q : String) :
    ((l.map Json.str).any (isStrEq q) = true) ↔ q ∈ l := by
  simp only [List.any_eq_true, List.mem_map]
  constructor
  · rintro ⟨j, ⟨s, hs, rfl⟩, hj⟩
    simp only [isStrEq] at hj
    rw [beq_iff_eq] at hj
    subst hj
    exact hs
  · intro hq
    exact ⟨Json.str q, ⟨q, hq, rfl⟩, by simp [isStrEq]⟩

theorem any_isStrEq_map_false (l : List String) (q : String) (h : q ∉ l) :
    (l.map Json.str).any (isStrEq q) = false := by
  rw [← Bool.not_eq_true]
  intro hh
  exact h ((any_isStrEq_map _ _).mp hh)

theorem map_str_length_ne_zero (accepts : List String) (h : accepts ≠ []) :
    ¬ ((accepts.map Json.str).length = 0) := by
  simp only [List.length_map, List.length_eq_zero]
  exact h

theorem choosePreferred_first (accepts : List String)
    (h : "x-solana-settlement" ∈ accepts) :
    choosePreferredScheme (accepts.map Json.str) = some "x-solana-settlement" := by
  have h1 := (any_isStrEq_map accepts "x-solana-settlement").mpr h
  simp [choosePreferredScheme, PAYMENT_SCHEMES, List.find?, h1]

theorem choosePreferred_second (accepts : List String)
    (h1 : "x-solana-settlement" ∉ accepts)
    (h2 : "x-ethereum-settlement" ∈ accepts) :
    choosePreferredScheme (accepts.map Json.str) = some "x-ethereum-settlement" := by
  have e1 := any_isStrEq_map_false accepts "x-solana-settlement" h1
  have e2 := (any_isStrEq_map accepts "x-ethereum-settlement").mpr h2
  simp [choosePreferredScheme, PAYMENT_SCHEMES, List.find?, e1, e2]

theorem choosePreferred_third (accepts : List String)
    (h1 : "x-solana-settlement" ∉ accepts)
    (h2 : "x-ethereum-settlement" ∉ accepts)
    (h3 : "x-bitcoin-settlement" ∈ accepts) :
    choosePreferredScheme (accepts.map Json.str) = some "x-bitcoin-settlement" := by
  have e1 := any_isStrEq_map_false accepts "x-solana-settlement" h1
  have e2 := any_isStrEq_map_false accepts "x-ethereum-settlement" h2
  have e3 := (any_isStrEq_map accepts "x-bitcoin-settlement").mpr h3
  simp [choosePreferredScheme, PAYMENT_SCHEMES, List.find?, e1, e2, e3]

theorem chooseScheme_length_pos (l : List Json) : 0 < (chooseScheme l).length := by
  have hdef : 0 < ("x-solana-settlement" : String).length := by decide
  unfold chooseScheme
  split
  · exact hdef
  · rcases hc : choosePreferredScheme l with _ | chosen
    · rcases hh : l.head? with _ | j
      · exact hdef
      · cases j with
        | str s =>
          by_cases hs : s = ""
          · simp only [hs, if_pos]
            exact hdef
          · simp only [if_neg hs]
            exact length_pos_of_ne_empty s hs
        | null => exact hdef
        | bool b => exact hdef
        | num n => exact hdef
        | arr elems => exact hdef
        | obj fields => exact hdef
    · unfold choosePreferredScheme at hc
      have hm : chosen ∈ PAYMENT_SCHEMES := List.mem_of_find?_eq_some hc
      fin_cases hm
      · exact hdef
      · exact (by decide : 0 < ("x-ethereum-settlement" : String).length)
      · exact (by decide : 0 < ("x-bitcoin-settlement" : String).length)

/- ------------------------------------------------------------------
Claim theorems
------------------------------------------------------------------ -/

/-- C2: `chooseScheme` is total and never throws (it is a total Lean
function): for every accepts list, including the empty list, it
returns a non-empty string, and on the empty list it returns the
default `x-solana-settlement`. -/
theorem chooseScheme_total_nonempty :
    (∀ accepts : List String, 0 < (chooseSchemeStrings accepts).length) ∧
    chooseSchemeStrings [] = "x-solana-settlement" :=
  ⟨fun accepts => chooseScheme_length_pos (accepts.map Json.str), by decide⟩

/-- C7: `chooseScheme` applies the fixed preference order
`x-solana-settlement`, then `x-ethereum-settlement`, then
`x-bitcoin-settlement`: whichever of these occurs first in the
preference order and is present in the list is returned, regardless of
the input order; in particular
`chooseScheme(['x-ethereum-settlement','x-solana-settlement'])` is
`'x-solana-settlement'`. -/
theorem chooseScheme_preference_order :
    (∀ accepts : List String, "x-solana-settlement" ∈ accepts →
        chooseSchemeStrings accepts = "x-solana-settlement") ∧
    (∀ accepts : List String, "x-solana-settlement" ∉ accepts →
        "x-ethereum-settlement" ∈ accepts →
        chooseSchemeStrings accepts = "x-ethereum-settlement") ∧
    (∀ accepts : List String, "x-solana-settlement" ∉ accepts →
        "x-ethereum-settlement" ∉ accepts →
        "x-bitcoin-settlement" ∈ accepts →
        chooseSchemeStrings accepts = "x-bitcoin-settlement") ∧
    chooseSchemeStrings ["x-ethereum-settlement", "x-solana-settlement"] =
      "x-solana-settlement" := by
  refine ⟨?_, ?_, ?_, by decide⟩
  · intro accepts h
    have hne : accepts ≠ [] := by rintro rfl; simp at h
    unfold chooseSchemeStrings chooseScheme
    rw [if_neg (map_str_length_ne_zero accepts hne), choosePreferred_first accepts h]
  · intro accepts h1 h2
    have hne : accepts ≠ [] := by rintro rfl; simp at h2
    unfold chooseSchemeStrings chooseScheme
    rw [if_neg (map_str_length_ne_zero accepts hne), choosePreferred_second accepts h1 h2]
  · intro accepts h1 h2 h3
    have hne : accepts ≠ [] := by rintro rfl; simp at h3
    unfold chooseSchemeStrings chooseScheme
    rw [if_neg (map_str_length_ne_zero accepts hne),
      choosePreferred_third accepts h1 h2 h3]

/-- C7 witness: the preference-order theorem applied at the concrete
list of the claim. -/
theorem chooseScheme_preference_order_witness :
    "x-solana-settlement" ∈ (["x-ethereum-settlement", "x-solana-settlement"] : List String) ∧
    chooseSchemeStrings ["x-ethereum-settlement", "x-solana-settlement"] =
      "x-solana-settlement" :=
  ⟨by decide,
   chooseScheme_preference_order.1 ["x-ethereum-settlement", "x-solana-settlement"] (by decide)⟩

/-- C8 counterexample: the list `[""]` is non-empty and contains none
of the three preferred schemes, yet `chooseScheme` does NOT return its
first element `""` verbatim — the JavaScript truthiness guard
`firstAvailable && typeof firstAvailable === 'string'` rejects the
empty string and falls back to the default scheme. -/
theorem chooseScheme_first_fallback_cex :
    ([""] : List String) ≠ [] ∧
    (∀ p ∈ PAYMENT_SCHEMES, p ∉ ([""] : List String)) ∧
    chooseSchemeStrings [""] ≠ "" ∧
    chooseSchemeStrings [""] = "x-solana-settlement" := by
  refine ⟨by decide, by decide, by decide, by decide⟩

/-- C8 (amended): for every non-empty accepts list whose first element
is a non-empty string and which contains none of the three preferred
schemes, `chooseScheme` returns that first element verbatim, even if
unrecognized; in particular `chooseScheme(['foo-scheme'])` is
`'foo-scheme'`. -/
theorem chooseScheme_first_fallback_amended (a : String) (rest : List String)
    (ha : a ≠ "")
    (h : ∀ p ∈ PAYMENT_SCHEMES, p ∉ (a :: rest)) :
    chooseSchemeStrings (a :: rest) = a := by
  unfold chooseSchemeStrings chooseScheme
  have hnone : choosePreferredScheme ((a :: rest).map Json.str) = none := by
    unfold choosePreferredScheme
    rw [List.find?_eq_none]
    intro p hp
    rw [any_isStrEq_map_false (a :: rest) p (h p hp)]
    decide
  rw [if_neg (map_str_length_ne_zero (a :: rest) (by simp)), hnone]
  simp [ha]

/-- C8 witness: the amended fallback theorem applied at
`['foo-scheme']`. -/
theorem chooseScheme_first_fallback_amended_witness :
    ("foo-scheme" : String) ≠ "" ∧
    (∀ p ∈ PAYMENT_SCHEMES, p ∉ (["foo-scheme"] : List String)) ∧
    chooseSchemeStrings ["foo-scheme"] = "foo-scheme" :=
  ⟨by decide, by decide,
   chooseScheme_first_fallback_amended "foo-scheme" [] (by decide) (by decide)⟩

theorem flow402_cases (env : FlowEnv) (endpoint : String) (opts : FlowOptions)
    (h402 : env.initResp.status = 402) :
    (∃ e, (executeX402Flow env endpoint opts).result = Except.error e ∧
          (executeX402Flow env endpoint opts).retryCalls = [] ∧
          (executeX402Flow env endpoint opts).signerCalls.length ≤ 1) ∨
    (∃ req, (executeX402Flow env endpoint opts).retryCalls = [req] ∧
            (executeX402Flow env endpoint opts).result = Except.ok (env.retryFetch req) ∧
            (executeX402Flow env endpoint opts).signerCalls.length = 1) := by
  cases hp : env.jsonParse env.initResp.bodyText with
  | none =>
    rw [executeX402Flow_noparse env endpoint opts h402 hp]
    exact Or.inl ⟨_, rfl, rfl, by simp⟩
  | some d =>
    rw [executeX402Flow_parse env endpoint opts d h402 hp]
    cases hr : resolveAcceptsInline d with
    | error e =>
      cases e
      rw [flowOn402_err env endpoint opts d hr]
      exact Or.inl ⟨_, rfl, rfl, by simp⟩
    | ok accepts =>
      rw [flowOn402_ok env endpoint opts d accepts hr]
      by_cases hlen : accepts.length = 0
      · rw [List.length_eq_zero] at hlen
        subst hlen
        rw [flowWithAccepts_nil]
        exact Or.inl ⟨_, rfl, rfl, by simp⟩
      · simp only [flowWithAccepts]
        rw [if_neg hlen]
        cases hs : signAndSubmit env.signEnv (buildIntent env endpoint opts d accepts) none with
        | error e =>
          exact Or.inl ⟨e, rfl, rfl, by simp⟩
        | ok pr =>
          simp only [flowRetry]
          by_cases hsuc : pr.success
          · rw [if_pos hsuc]
            exact Or.inr ⟨_, rfl, rfl, by simp⟩
          · rw [if_neg hsuc]
            exact Or.inl ⟨_, rfl, rfl, by simp⟩

/-- C4: for every initial response whose status is not 402 (200 or any
other 4xx/5xx alike), `executeX402Flow` returns that response
unchanged, never calls the signer, and issues no retry. -/
theorem flow_non402_passthrough (env : FlowEnv) (endpoint : String) (opts : FlowOptions)
    (h : env.initResp.status ≠ 402) :
    (executeX402Flow env endpoint opts).result = Except.ok env.initResp ∧
    (executeX402Flow env endpoint opts).signerCalls = [] ∧
    (executeX402Flow env endpoint opts).retryCalls = [] := by
  rw [executeX402Flow_not402 env endpoint opts h]
  exact ⟨rfl, rfl, rfl⟩

/-- C4 witness: the pass-through theorem applied to a concrete 200
response. -/
theorem flow_non402_passthrough_witness :
    (demoFlowEnv 200 "ok" none).initResp.status ≠ 402 ∧
    ((executeX402Flow (demoFlowEnv 200 "ok" none) "http://demo" {}).result =
        Except.ok (demoFlowEnv 200 "ok" none).initResp ∧
      (executeX402Flow (demoFlowEnv 200 "ok" none) "http://demo" {}).signerCalls = [] ∧
      (executeX402Flow (demoFlowEnv 200 "ok" none) "http://demo" {}).retryCalls = []) :=
  ⟨by decide, flow_non402_passthrough (demoFlowEnv 200 "ok" none) "http://demo" {} (by decide)⟩

/-- C6: a 402 whose body does not parse as JSON raises a
`FaremeterError` with code `INVALID_402_RESPONSE`; the failure is
fatal — the signer is never called and the request is not retried. -/
theorem flow_invalid_json_fatal (env : FlowEnv) (endpoint : String) (opts : FlowOptions)
    (h402 : env.initResp.status = 402)
    (hparse : env.jsonParse env.initResp.bodyText = none) :
    (executeX402Flow env endpoint opts).result =
      Except.error (invalid402Error env.initResp.bodyText) ∧
    (invalid402Error env.initResp.bodyText).code = "INVALID_402_RESPONSE" ∧
    (executeX402Flow env endpoint opts).signerCalls = [] ∧
    (executeX402Flow env endpoint opts).retryCalls = [] := by
  rw [executeX402Flow_noparse env endpoint opts h402 hparse]
  exact ⟨rfl, rfl, rfl, rfl⟩

/-- C6 witness: the invalid-JSON theorem applied to a concrete 402
response whose body `not json` fails to parse. -/
theorem flow_invalid_json_fatal_witness :
    (demoFlowEnv 402 "not json" none).initResp.status = 402 ∧
    (demoFlowEnv 402 "not json" none).jsonParse "not json" = none ∧
    ((executeX402Flow (demoFlowEnv 402 "not json" none) "http://demo" {}).result =
        Except.error (invalid402Error "not json") ∧
      (invalid402Error "not json").code = "INVALID_402_RESPONSE" ∧
      (executeX402Flow (demoFlowEnv 402 "not json" none) "http://demo" {}).signerCalls = [] ∧
      (executeX402Flow (demoFlowEnv 402 "not json" none) "http://demo" {}).retryCalls = []) :=
  ⟨rfl, rfl,
   flow_invalid_json_fatal (demoFlowEnv 402 "not json" none) "http://demo" {} rfl rfl⟩

/-- C1: when the 402 body resolves to an empty accepts list, the flow
fails with the `EmptyAcceptsError` (code `EMPTY_ACCEPTS`, details
carrying the source endpoint) before any call to the signer and
without any retry: it never silently proceeds with zero payment
options. -/
theorem flow_empty_accepts_rejected (env : FlowEnv) (endpoint : String) (opts : FlowOptions)
    (d : Json)
    (h402 : env.initResp.status = 402)
    (hparse : env.jsonParse env.initResp.bodyText = some d)
    (hempty : resolveAcceptsInline d = Except.ok []) :
    (executeX402Flow env endpoint opts).result = Except.error (emptyAcceptsError endpoint) ∧
    (emptyAcceptsError endpoint).code = "EMPTY_ACCEPTS" ∧
    (emptyAcceptsError endpoint).details = ErrorDetails.emptyAccepts endpoint ∧
    (executeX402Flow env endpoint opts).signerCalls = [] ∧
    (executeX402Flow env endpoint opts).retryCalls = [] := by
  rw [executeX402Flow_parse env endpoint opts d h402 hparse,
    flowOn402_ok env endpoint opts d [] hempty,
    flowWithAccepts_nil]
  exact ⟨rfl, rfl, rfl, rfl, rfl⟩

/-- C1 witness: the empty-accepts theorem applied to a concrete 402
response with body `accepts: []`. -/
theorem flow_empty_accepts_rejected_witness :
    (demoFlowEnv 402 "empty" (some (Json.obj [("accepts", Json.arr [])]))).initResp.status = 402 ∧
    resolveAcceptsInline (Json.obj [("accepts", Json.arr [])]) = Except.ok [] ∧
    ((executeX402Flow (demoFlowEnv 402 "empty" (some (Json.obj [("accepts", Json.arr [])])))
        "http://demo" {}).result = Except.error (emptyAcceptsError "http://demo") ∧
      (emptyAcceptsError "http://demo").code = "EMPTY_ACCEPTS" ∧
      (emptyAcceptsError "http://demo").details = ErrorDetails.emptyAccepts "http://demo" ∧
      (executeX402Flow (demoFlowEnv 402 "empty" (some (Json.obj [("accepts", Json.arr [])])))
        "http://demo" {}).signerCalls = [] ∧
      (executeX402Flow (demoFlowEnv 402 "empty" (some (Json.obj [("accepts", Json.arr [])])))
        "http://demo" {}).retryCalls = []) :=
  ⟨rfl, rfl,
   flow_empty_accepts_rejected (demoFlowEnv 402 "empty" (some (Json.obj [("accepts", Json.arr [])])))
     "http://demo" {} (Json.obj [("accepts", Json.arr [])]) rfl rfl rfl⟩

/-- C9: the outcome of `executeX402Flow` does not depend on the
`maxRetries` option (two invocations identical except for that value
are equal), the flow performs at most one signer call and at most one
retry in every run, and a completed 402 negotiation performs exactly
one payment negotiation and exactly one retry — it never loops or
re-negotiates, whatever the retry's status. -/
theorem flow_maxRetries_single_attempt :
    (∀ (env : FlowEnv) (endpoint mth : String) (hs : List (String × String))
        (b : Option Json) (m1 m2 : Nat),
      executeX402Flow env endpoint
          { method := mth, headers := hs, body := b, maxRetries := m1 } =
        executeX402Flow env endpoint
          { method := mth, headers := hs, body := b, maxRetries := m2 }) ∧
    (∀ (env : FlowEnv) (endpoint : String) (opts : FlowOptions),
      (executeX402Flow env endpoint opts).signerCalls.length ≤ 1 ∧
      (executeX402Flow env endpoint opts).retryCalls.length ≤ 1) ∧
    (∀ (env : FlowEnv) (endpoint : String) (opts : FlowOptions) (r : HttpResponse),
      env.initResp.status = 402 →
      (executeX402Flow env endpoint opts).result = Except.ok r →
      (executeX402Flow env endpoint opts).signerCalls.length = 1 ∧
      (executeX402Flow env endpoint opts).retryCalls.length = 1) := by
  refine ⟨fun env endpoint mth hs b m1 m2 => rfl, ?_, ?_⟩
  · intro env endpoint opts
    by_cases h402 : env.initResp.status = 402
    · rcases flow402_cases env endpoint opts h402 with
        ⟨e, _, hrc, hsc⟩ | ⟨req, hrc, _, hsc⟩
      · exact ⟨hsc, by rw [hrc]; simp⟩
      · exact ⟨le_of_eq hsc, by rw [hrc]; simp⟩
    · rw [executeX402Flow_not402 env endpoint opts h402]
      exact ⟨by simp, by simp⟩
  · intro env endpoint opts r h402 hok
    rcases flow402_cases env endpoint opts h402 with
      ⟨e, he, _, _⟩ | ⟨req, hrc, _, hsc⟩
    · rw [he] at hok
      cases hok
    · exact ⟨hsc, by rw [hrc]; simp⟩

/-- C9 witness: the single-attempt theorem applied to a concrete
completed 402 negotiation. -/
theorem flow_maxRetries_single_attempt_witness :
    demoPayEnv.initResp.status = 402 ∧
    (executeX402Flow demoPayEnv "http://demo" {}).result =
      Except.ok { status := 200, bodyText := "paid" } ∧
    (executeX402Flow demoPayEnv "http://demo" {}).signerCalls.length = 1 ∧
    (executeX402Flow demoPayEnv "http://demo" {}).retryCalls.length = 1 :=
  ⟨rfl, rfl,
   (flow_maxRetries_single_attempt.2.2 demoPayEnv "http://demo" {}
     { status := 200, bodyText := "paid" } rfl rfl).1,
   (flow_maxRetries_single_attempt.2.2 demoPayEnv "http://demo" {}
     { status := 200, bodyText := "paid" } rfl rfl).2⟩

/-- C5: after a successful negotiation the retried request carries the
payment proof in the three headers `x-faremeter-payment-id`,
`X-Payment-Signature` and `X-Payment-Transaction`; the
`X-Payment-Signature` value equals the signer's returned signature and
is non-empty; and caller-supplied headers are merged after the payment
headers, so on a key collision the caller's (last-written) value wins
while any non-colliding payment header survives. -/
theorem flow_payment_headers (env : FlowEnv) (endpoint : String) (opts : FlowOptions)
    (d : Json) (accepts : List Json)
    (h402 : env.initResp.status = 402)
    (hparse : env.jsonParse env.initResp.bodyText = some d)
    (hacc : resolveAcceptsInline d = Except.ok accepts)
    (hne : ¬ (accepts.length = 0))
    (pk : String) (hw : env.signEnv.getWallet = Except.ok pk) :
    ∃ intent req r s,
      (executeX402Flow env endpoint opts).signerCalls = [intent] ∧
      (executeX402Flow env endpoint opts).retryCalls = [req] ∧
      (executeX402Flow env endpoint opts).result = Except.ok (env.retryFetch req) ∧
      signAndSubmit env.signEnv intent none = Except.ok r ∧
      r.signature = some s ∧
      s ≠ "" ∧
      req.headers = paymentHeaders s s ++ opts.headers ∧
      lookupLast (paymentHeaders s s) "x-faremeter-payment-id" = some s ∧
      lookupLast (paymentHeaders s s) "X-Payment-Signature" = some s ∧
      lookupLast (paymentHeaders s s) "X-Payment-Transaction" = some s ∧
      ("X-Payment-Signature" ∉ opts.headers.map Prod.fst →
        lookupLast req.headers "X-Payment-Signature" = some s) ∧
      (∀ k, k ∈ opts.headers.map Prod.fst →
        lookupLast req.headers k = lookupLast opts.headers k) := by
  rw [executeX402Flow_parse env endpoint opts d h402 hparse,
    flowOn402_ok env endpoint opts d accepts hacc,
    flowWithAccepts_success env endpoint opts d accepts hne pk hw]
  refine ⟨buildIntent env endpoint opts d accepts,
    buildRetryRequest env opts (fabricateSignature env.signEnv.rng)
      (fabricateSignature env.signEnv.rng),
    _, fabricateSignature env.signEnv.rng,
    rfl, rfl, rfl,
    signAndSubmit_ok env.signEnv (buildIntent env endpoint opts d accepts) none pk hw,
    rfl, fabricateSignature_ne_empty env.signEnv.rng,
    rfl, rfl, rfl, rfl, ?_, ?_⟩
  · intro hnot
    show lookupLast (paymentHeaders _ _ ++ opts.headers) "X-Payment-Signature" = _
    rw [lookupLast_append_of_not_mem _ _ _ hnot]
    rfl
  · intro k hk
    show lookupLast (paymentHeaders _ _ ++ opts.headers) k = lookupLast opts.headers k
    exact lookupLast_append_of_mem _ _ _ hk

/-- C5 witness: the payment-header theorem applied to a concrete
one-scheme 402 negotiation. -/
theorem flow_payment_headers_witness :
    demoPayEnv.initResp.status = 402 ∧
    demoPayEnv.jsonParse demoPayEnv.initResp.bodyText = some demoAcceptsBody ∧
    resolveAcceptsInline demoAcceptsBody = Except.ok [Json.str "x-solana-settlement"] ∧
    ¬ (([Json.str "x-solana-settlement"] : List Json).length = 0) ∧
    demoPayEnv.signEnv.getWallet = Except.ok "DemoWa11etPub1icKey" ∧
    (∃ intent req r s,
      (executeX402Flow demoPayEnv "http://demo" {}).signerCalls = [intent] ∧
      (executeX402Flow demoPayEnv "http://demo" {}).retryCalls = [req] ∧
      (executeX402Flow demoPayEnv "http://demo" {}).result =
        Except.ok (demoPayEnv.retryFetch req) ∧
      signAndSubmit demoPayEnv.signEnv intent none = Except.ok r ∧
      r.signature = some s ∧
      s ≠ "" ∧
      req.headers = paymentHeaders s s ++ (({} : FlowOptions)).headers ∧
      lookupLast (paymentHeaders s s) "x-faremeter-payment-id" = some s ∧
      lookupLast (paymentHeaders s s) "X-Payment-Signature" = some s ∧
      lookupLast (paymentHeaders s s) "X-Payment-Transaction" = some s ∧
      ("X-Payment-Signature" ∉ (({} : FlowOptions)).headers.map Prod.fst →
        lookupLast req.headers "X-Payment-Signature" = some s) ∧
      (∀ k, k ∈ (({} : FlowOptions)).headers.map Prod.fst →
        lookupLast req.headers k = lookupLast (({} : FlowOptions)).headers k)) :=
  ⟨rfl, rfl, rfl, by decide, rfl,
   flow_payment_headers demoPayEnv "http://demo" {} demoAcceptsBody
     [Json.str "x-solana-settlement"] rfl rfl rfl (by decide) "DemoWa11etPub1icKey" rfl⟩

/-- C3 counterexample: for the valid JSON body `null`, none of the
three fields is present as an array, yet the resolver does NOT produce
the empty list — the very first property access
`acceptsData.accepts` throws a TypeError (surfaced by the outer catch
as `X402_FLOW_FAILED`), so the claim's "treat as empty" clause fails
at this input. -/
theorem resolve_accepts_null_body_cex :
    Json.null.getField "accepts" = none ∧
    Json.null.getField "payment_methods" = none ∧
    Json.null.getField "schemes" = none ∧
    resolveAcceptsInline Json.null = Except.error () ∧
    resolveAcceptsInline Json.null ≠ Except.ok [] :=
  ⟨rfl, rfl, rfl, rfl, fun h => Except.noConfusion h⟩

/-- C3 (amended): for every non-null 402 JSON body the resolver is
first-match-wins over `accepts` (entries normalized: a plain string
maps to itself, an object with a non-empty-string `method` field maps
to that string), then `payment_methods`, then `schemes`, and resolves
the empty list when none of the three is present as an array; a `null`
body instead raises a TypeError before any list is resolved. -/
theorem resolve_accepts_parse_policy :
    (∀ (d : Json) (xs : List Json), arrField d "accepts" = some xs →
      resolveAcceptsInline d = mapEntries xs) ∧
    (∀ s : String, normalizeEntry (Json.str s) = Except.ok (Json.str s)) ∧
    (∀ (fields : List (String × Json)) (m : String),
      lookupField fields "method" = some (Json.str m) → m ≠ "" →
      normalizeEntry (Json.obj fields) = Except.ok (Json.str m)) ∧
    (∀ (d : Json) (xs : List Json), arrField d "accepts" = none →
      arrField d "payment_methods" = some xs →
      resolveAcceptsInline d = Except.ok xs) ∧
    (∀ (d : Json) (xs : List Json), arrField d "accepts" = none →
      arrField d "payment_methods" = none → arrField d "schemes" = some xs →
      resolveAcceptsInline d = Except.ok xs) ∧
    (∀ d : Json, d ≠ Json.null → arrField d "accepts" = none →
      arrField d "payment_methods" = none → arrField d "schemes" = none →
      resolveAcceptsInline d = Except.ok []) := by
  refine ⟨?_, fun s => rfl, ?_, ?_, ?_, ?_⟩
  · intro d xs h
    cases d with
    | null => exact absurd h (by simp [arrField, Json.getField])
    | bool b => exact absurd h (by simp [arrField, Json.getField])
    | num n => exact absurd h (by simp [arrField, Json.getField])
    | str s => exact absurd h (by simp [arrField, Json.getField])
    | arr elems => exact absurd h (by simp [arrField, Json.getField])
    | obj fields =>
      simp only [resolveAcceptsInline]
      rw [h]
  · intro fields m h hm
    simp only [normalizeEntry]
    rw [h]
    simp [Json.truthy, hm]
  · intro d xs h1 h2
    cases d with
    | null => exact absurd h2 (by simp [arrField, Json.getField])
    | bool b => exact absurd h2 (by simp [arrField, Json.getField])
    | num n => exact absurd h2 (by simp [arrField, Json.getField])
    | str s => exact absurd h2 (by simp [arrField, Json.getField])
    | arr elems => exact absurd h2 (by simp [arrField, Json.getField])
    | obj fields =>
      simp only [resolveAcceptsInline]
      rw [h1, h2]
  · intro d xs h1 h2 h3
    cases d with
    | null => exact absurd h3 (by simp [arrField, Json.getField])
    | bool b => exact absurd h3 (by simp [arrField, Json.getField])
    | num n => exact absurd h3 (by simp [arrField, Json.getField])
    | str s => exact absurd h3 (by simp [arrField, Json.getField])
    | arr elems => exact absurd h3 (by simp [arrField, Json.getField])
    | obj fields =>
      simp only [resolveAcceptsInline]
      rw [h1, h2, h3]
  · intro d hd h1 h2 h3
    cases d with
    | null => exact absurd rfl hd
    | bool b => rfl
    | num n => rfl
    | str s => rfl
    | arr elems => rfl
    | obj fields =>
      simp only [resolveAcceptsInline]
      rw [h1, h2, h3]

/-- C3 witness: the parse-policy theorem applied to a concrete body
whose accepts array holds a plain string and a method object. -/
theorem resolve_accepts_parse_policy_witness :
    arrField (Json.obj [("accepts",
        Json.arr [Json.str "x-solana-settlement", Json.obj [("method", Json.str "x-ethereum-settlement")]])])
      "accepts" = some [Json.str "x-solana-settlement", Json.obj [("method", Json.str "x-ethereum-settlement")]] ∧
    resolveAcceptsInline (Json.obj [("accepts",
        Json.arr [Json.str "x-solana-settlement", Json.obj [("method", Json.str "x-ethereum-settlement")]])]) =
      Except.ok [Json.str "x-solana-settlement", Json.str "x-ethereum-settlement"] :=
  ⟨rfl,
   (resolve_accepts_parse_policy.1
     (Json.obj [("accepts",
       Json.arr [Json.str "x-solana-settlement", Json.obj [("method", Json.str "x-ethereum-settlement")]])])
     [Json.str "x-solana-settlement", Json.obj [("method", Json.str "x-ethereum-settlement")]]
     rfl).trans rfl⟩

/-- C10 counterexample: on the 402 JSON body
`accepts: [ method: x-solana-settlement ]` the two resolvers disagree:
the inline step of `executeX402Flow` maps the entry to its `method`
string while `fetchAccepts` keeps the raw object, so there is no
single Accepts Resolver behavior. -/
theorem resolvers_disagree_cex :
    resolveAcceptsInline
        (Json.obj [("accepts", Json.arr [Json.obj [("method", Json.str "x-solana-settlement")]])]) =
      Except.ok [Json.str "x-solana-settlement"] ∧
    resolveAcceptsFetch
        (Json.obj [("accepts", Json.arr [Json.obj [("method", Json.str "x-solana-settlement")]])]) =
      Except.ok [Json.obj [("method", Json.str "x-solana-settlement")]] ∧
    resolveAcceptsInline
        (Json.obj [("accepts", Json.arr [Json.obj [("method", Json.str "x-solana-settlement")]])]) ≠
      resolveAcceptsFetch
        (Json.obj [("accepts", Json.arr [Json.obj [("method", Json.str "x-solana-settlement")]])]) := by
  refine ⟨rfl, rfl, fun h => ?_⟩
  have h2 : (Except.ok [Json.str "x-solana-settlement"] : Except Unit (List Json)) =
      Except.ok [Json.obj [("method", Json.str "x-solana-settlement")]] := h
  exact Json.noConfusion (List.cons.inj (Except.ok.inj h2)).1

/-- C10 (amended): the two resolvers agree whenever the `accepts`
field is absent or not an array (both then fall through identically),
and whenever `accepts` is an array of plain strings (the inline
normalization is then the identity, so they also fail on exactly the
same bodies there); they diverge only on `accepts` arrays containing
non-string entries. -/
theorem resolvers_agree_amended :
    (∀ d : Json, arrField d "accepts" = none →
      resolveAcceptsInline d = resolveAcceptsFetch d) ∧
    (∀ (d : Json) (xs : List Json), arrField d "accepts" = some xs →
      (∀ j ∈ xs, ∃ s, j = Json.str s) →
      resolveAcceptsInline d = resolveAcceptsFetch d) := by
  constructor
  · intro d h
    cases d with
    | null => rfl
    | bool b => rfl
    | num n => rfl
    | str s => rfl
    | arr elems => rfl
    | obj fields =>
      simp only [resolveAcceptsInline, resolveAcceptsFetch]
      rw [h]
  · intro d xs h hstr
    cases d with
    | null => exact absurd h (by simp [arrField, Json.getField])
    | bool b => exact absurd h (by simp [arrField, Json.getField])
    | num n => exact absurd h (by simp [arrField, Json.getField])
    | str s => exact absurd h (by simp [arrField, Json.getField])
    | arr elems => exact absurd h (by simp [arrField, Json.getField])
    | obj fields =>
      simp only [resolveAcceptsInline, resolveAcceptsFetch]
      rw [h]
      show mapEntries xs = Except.ok xs
      exact mapEntries_strings xs hstr

/-- C10 witness: the amended agreement theorem applied to a body whose
accepts array holds plain strings only. -/
theorem resolvers_agree_amended_witness :
    arrField (Json.obj [("accepts", Json.arr [Json.str "x-solana-settlement"])]) "accepts" =
      some [Json.str "x-solana-settlement"] ∧
    (∀ j ∈ ([Json.str "x-solana-settlement"] : List Json), ∃ s, j = Json.str s) ∧
    resolveAcceptsInline (Json.obj [("accepts", Json.arr [Json.str "x-solana-settlement"])]) =
      resolveAcceptsFetch (Json.obj [("accepts", Json.arr [Json.str "x-solana-settlement"])]) :=
  ⟨rfl, by simp,
   resolvers_agree_amended.2 (Json.obj [("accepts", Json.arr [Json.str "x-solana-settlement"])])
     [Json.str "x-solana-settlement"] rfl (by simp)⟩
